import Mathlib

/-!
Verification development for the OPN_IaC repository: a shallow embedding of
the configuration-management core (conflict detection, the XML-file config
backend, VLAN / interface operations, and the container deployment
orchestration) together with proofs of the specification claims.

Python conventions modelled explicitly:
* `None`-able values become `Option`;
* Python `str(x)` on an optional value renders `none` as `"None"`;
* exceptions become `Except` / an explicit outcome type;
* Django queryset `.filter(...).first()` becomes `List.find?`.
-/

namespace OPNIaC

/-- Python `str()` of an `Optional[int]` (an f-string renders `None` as `"None"`). -/
def pyStrOfOptInt : Option Int → String
  | some n => toString n
  | none => "None"

/-- Python `str()` of an `Optional[str]` inside an f-string (`None` renders as `"None"`). -/
def pyStrOfOptStr : Option String → String
  | some s => s
  | none => "None"

/-- Python `s.isdigit()` on a character list: non-empty and all decimal digits. -/
def pyIsDigitChars (l : List Char) : Bool :=
  !l.isEmpty && l.all Char.isDigit

/-- Python `s.isdigit()` for ASCII strings. -/
def pyIsDigit (s : String) : Bool :=
  pyIsDigitChars s.data

/-- Python `str.split(sep)` for a one-character separator, on character
lists (e.g. `"a:b".split(":") = ["a", "b"]`, `"".split(":") = [""]`). -/
def splitOnChar (sep : Char) : List Char → List (List Char)
  | [] => [[]]
  | c :: rest =>
      match splitOnChar sep rest with
      | [] => if c == sep then [[], []] else [[c]]
      | h :: t => if c == sep then [] :: h :: t else (c :: h) :: t

/-- Python `int()` on a string of decimal digits. -/
def digitsToNat (l : List Char) : Nat :=
  l.foldl (fun acc c => acc * 10 + (c.toNat - 48)) 0

/-! ## Sample_Py/xml_utils.py : MAC address helpers -/

namespace XmlUtils

/-- The character class `[0-9a-fA-F]` of the regexes in `xml_utils.py`. -/
def isHexDigit (c : Char) : Bool :=
  decide (c ∈ ['A', 'B', 'C', 'D', 'E', 'F', 'a', 'b', 'c', 'd', 'e', 'f',
               '0', '1', '2', '3', '4', '5', '6', '7', '8', '9'])

/-- A separator accepted by the MAC regex: `[:-]`. -/
def isMacSep (c : Char) : Bool :=
  c == ':' || c == '-'

/-- `validate_mac_address`: the regex `^([0-9A-Fa-f]{2}[:-]){5}([0-9A-Fa-f]{2})$`
as a structural check on the character list. -/
def macPattern : List Char → Bool
  | [a0, a1, s1, b0, b1, s2, c0, c1, s3, d0, d1, s4, e0, e1, s5, f0, f1] =>
      isHexDigit a0 && isHexDigit a1 && isMacSep s1 &&
      isHexDigit b0 && isHexDigit b1 && isMacSep s2 &&
      isHexDigit c0 && isHexDigit c1 && isMacSep s3 &&
      isHexDigit d0 && isHexDigit d1 && isMacSep s4 &&
      isHexDigit e0 && isHexDigit e1 && isMacSep s5 &&
      isHexDigit f0 && isHexDigit f1
  | _ => false

/-- `validate_mac_address(mac)` from `Sample_Py/xml_utils.py`. -/
def validate_mac_address (mac : String) : Bool :=
  macPattern mac.data

/-- Python `str.lower()` restricted to the alphabet reachable at the
`normalize_mac_address` call site: the string is pre-filtered to
`[0-9a-fA-F]`, so only the letters `A`–`F` can be lowercased. -/
def pyLower : Char → Char
  | 'A' => 'a'
  | 'B' => 'b'
  | 'C' => 'c'
  | 'D' => 'd'
  | 'E' => 'e'
  | 'F' => 'f'
  | c => c

/-- `re.sub(r'[^0-9a-fA-F]', '', mac).lower()`: drop every non-hex character,
then lowercase. -/
def macClean (l : List Char) : List Char :=
  (l.filter isHexDigit).map pyLower

/-- Python slice `clean[i:i+2]`. -/
def macSlice (l : List Char) (i : Nat) : List Char :=
  (l.drop i).take 2

/-- `':'.join(mac_clean[i:i+2] for i in range(0, 12, 2))` on character lists:
six slices (taken at 0, 2, 4, 6, 8, 10) interleaved with `':'`. -/
def normalizeMacChars (l : List Char) : List Char :=
  let cl := macClean l
  macSlice cl 0 ++ ':' :: macSlice cl 2 ++ ':' :: macSlice cl 4 ++
    ':' :: macSlice cl 6 ++ ':' :: macSlice cl 8 ++ ':' :: macSlice cl 10

/-- `normalize_mac_address(mac)` from `Sample_Py/xml_utils.py`. -/
def normalize_mac_address (mac : String) : String :=
  ⟨normalizeMacChars mac.data⟩

/-- A lowercase hex digit (`[0-9a-f]`), for stating canonicity of the output. -/
def isLowerHexDigit (c : Char) : Bool :=
  decide (c ∈ ['a', 'b', 'c', 'd', 'e', 'f',
               '0', '1', '2', '3', '4', '5', '6', '7', '8', '9'])

/-- Canonical MAC form: six lowercase hex pairs joined by `':'`. -/
def isCanonicalMac : List Char → Bool
  | [a0, a1, s1, b0, b1, s2, c0, c1, s3, d0, d1, s4, e0, e1, s5, f0, f1] =>
      isLowerHexDigit a0 && isLowerHexDigit a1 && (s1 == ':') &&
      isLowerHexDigit b0 && isLowerHexDigit b1 && (s2 == ':') &&
      isLowerHexDigit c0 && isLowerHexDigit c1 && (s3 == ':') &&
      isLowerHexDigit d0 && isLowerHexDigit d1 && (s4 == ':') &&
      isLowerHexDigit e0 && isLowerHexDigit e1 && (s5 == ':') &&
      isLowerHexDigit f0 && isLowerHexDigit f1
  | _ => false

end XmlUtils

/-! ## OPNSense/models.py : the Django records read by the conflict detector -/

/-- `VLAN` Django model (the fields `detect_conflicts` reads). -/
structure OrmVLAN where
  parent_if : String
  vlan_tag : Int
  description : String
deriving Repr, DecidableEq

/-- `NetworkInterface` Django model (the fields `detect_conflicts` reads). -/
structure OrmInterface where
  name : String
  ipaddr : String
deriving Repr, DecidableEq

/-- `PortForward` Django model (the fields `detect_conflicts` reads);
`src_port` and `dst_port` are stored as text columns. -/
structure OrmPortForward where
  src_port : String
  protocol : String
  dst_ip : String
  dst_port : String
deriving Repr, DecidableEq

/-- One element of the `Container.ports` JSON list, as written by the app:
`{host_port, container_port, protocol}`. -/
structure OrmPortEntry where
  host_port : Int
  container_port : Int
  protocol : String
deriving Repr, DecidableEq

/-- `Container` Django model (the fields `detect_conflicts` reads). -/
structure OrmContainer where
  name : String
  ip_address : String
  mac_address : String
  ports : List OrmPortEntry
deriving Repr, DecidableEq

/-- The stored state visible to `DeploymentService` through the Django ORM. -/
structure OrmState where
  vlans : List OrmVLAN
  interfaces : List OrmInterface
  containers : List OrmContainer
  port_forwards : List OrmPortForward
deriving Repr, DecidableEq

/-! ## OPNSense/services/deployment_service.py -/

namespace DeploymentService

/-- The `deployment["network_config"]` sub-dict; each `.get` can yield `None`. -/
structure NetworkConfigDict where
  vlan_id : Option Int
  ip_address : Option String
  mac_address : Option String
deriving Repr, DecidableEq

/-- One element of `deployment["ports"]`; `host_port` may be missing and
`protocol` defaults to `"tcp"` at the read site. `container_port` is carried
in the dict but never read by `detect_conflicts`. -/
structure PortDict where
  host_port : Option Int
  container_port : Option Int
  protocol : Option String
deriving Repr, DecidableEq

/-- The deployment dict passed to `detect_conflicts`; any key may be absent. -/
structure DeploymentDict where
  name : Option String
  network_config : Option NetworkConfigDict
  ports : Option (List PortDict)
deriving Repr, DecidableEq

/-- The VLAN block of `detect_conflicts`: first stored VLAN with the requested
tag, flagged unless its description is exactly `Container <name> VLAN`. -/
def vlanConflictMsgs (st : OrmState) (dep : DeploymentDict) : List String :=
  let vlan_id := (dep.network_config.getD ⟨none, none, none⟩).vlan_id
  match st.vlans.find? (fun v => some v.vlan_tag == vlan_id) with
  | some existing_vlan =>
      if existing_vlan.description ≠ "Container " ++ pyStrOfOptStr dep.name ++ " VLAN" then
        ["VLAN " ++ pyStrOfOptInt vlan_id ++ " is already in use by \x27" ++
          existing_vlan.description ++ "\x27"]
      else []
  | none => []

/-- The IP block of `detect_conflicts`: an interface with that address, then a
container (other than the deployment itself) with that address. -/
def ipConflictMsgs (st : OrmState) (dep : DeploymentDict) : List String :=
  let ip_address := (dep.network_config.getD ⟨none, none, none⟩).ip_address
  (match st.interfaces.find? (fun i => some i.ipaddr == ip_address) with
   | some existing_iface =>
       ["IP address " ++ pyStrOfOptStr ip_address ++ " is already assigned to interface \x27" ++
         existing_iface.name ++ "\x27"]
   | none => []) ++
  (match st.containers.find?
      (fun c => some c.ip_address == ip_address && !(some c.name == dep.name)) with
   | some existing_container =>
       ["IP address " ++ pyStrOfOptStr ip_address ++ " is already assigned to container \x27" ++
         existing_container.name ++ "\x27"]
   | none => [])

/-- The MAC block of `detect_conflicts`. -/
def macConflictMsgs (st : OrmState) (dep : DeploymentDict) : List String :=
  let mac_address := (dep.network_config.getD ⟨none, none, none⟩).mac_address
  match st.containers.find?
      (fun c => some c.mac_address == mac_address && !(some c.name == dep.name)) with
  | some c =>
      ["MAC address " ++ pyStrOfOptStr mac_address ++ " is already assigned to container \x27" ++
        c.name ++ "\x27"]
  | none => []

/-- The body of the per-port loop of `detect_conflicts`: an existing port
forward for `(str(host_port), protocol)`, then another container claiming the
same `(host_port, protocol)` pair in its `ports` JSON. -/
def portConflictMsgsOne (st : OrmState) (depName : Option String) (port : PortDict) : List String :=
  let host_port := port.host_port
  let protocol := port.protocol.getD "tcp"
  (match st.port_forwards.find?
      (fun f => f.src_port == pyStrOfOptInt host_port && f.protocol == protocol) with
   | some existing_port =>
       ["Port " ++ pyStrOfOptInt host_port ++ "/" ++ protocol ++ " is already forwarded to " ++
         existing_port.dst_ip ++ ":" ++ existing_port.dst_port]
   | none => []) ++
  (match st.containers.find?
      (fun c => c.ports.any (fun e => some e.host_port == host_port && e.protocol == protocol) &&
        !(some c.name == depName)) with
   | some c =>
       ["Port " ++ pyStrOfOptInt host_port ++ "/" ++ protocol ++ " is already used by container \x27" ++
         c.name ++ "\x27"]
   | none => [])

/-- The `for port in ports` loop, appending each port entry's messages. -/
def portConflictMsgs (st : OrmState) (depName : Option String) : List PortDict → List String
  | [] => []
  | p :: rest => portConflictMsgsOne st depName p ++ portConflictMsgs st depName rest

/-- `DeploymentService.detect_conflicts`: builds the four category lists and
drops the empty ones (`{k: v for k, v in conflicts.items() if v}`). -/
def detect_conflicts (st : OrmState) (deployment : DeploymentDict) : List (String × List String) :=
  ([("vlan", vlanConflictMsgs st deployment),
    ("ip", ipConflictMsgs st deployment),
    ("mac", macConflictMsgs st deployment),
    ("port", portConflictMsgs st deployment.name (deployment.ports.getD []))]).filter
    (fun kv => !kv.2.isEmpty)

/-- The result dict of `validate_deployment`; the success branch carries no
`conflicts` key, modelled as `none`. -/
structure ValidationResult where
  valid : Bool
  conflicts : Option (List (String × List String))
  message : String
deriving Repr, DecidableEq

/-- `DeploymentService.validate_deployment`. -/
def validate_deployment (st : OrmState) (deployment : DeploymentDict) : ValidationResult :=
  let conflicts := detect_conflicts st deployment
  if !conflicts.isEmpty then
    { valid := false, conflicts := some conflicts,
      message := "Deployment would conflict with existing configuration" }
  else
    { valid := true, conflicts := none,
      message := "Deployment validation successful" }

end DeploymentService

/-! ## OPNSense/api/models : pydantic resource models

Pydantic validators run at construction, so each model with a validator is
embedded as a plain record plus an `mk*` smart constructor returning
`Except String` (a `ValidationError` becomes `.error`). -/

namespace Models

/-- `Protocol` enum from `api/models/firewall.py`. -/
inductive Protocol
  | any | tcp | udp | icmp | esp | ah | gre
deriving Repr, DecidableEq

/-- Pydantic coercion of a string to the `Protocol` enum (by member value). -/
def Protocol.ofPyString? : String → Option Protocol
  | "any" => some .any
  | "tcp" => some .tcp
  | "udp" => some .udp
  | "icmp" => some .icmp
  | "esp" => some .esp
  | "ah" => some .ah
  | "gre" => some .gre
  | _ => none

/-- `RuleAction` enum. -/
inductive RuleAction
  | pass | block | reject
deriving Repr, DecidableEq

/-- `IPProtocol` enum. -/
inductive IPProtocol
  | inet | inet6 | inet46
deriving Repr, DecidableEq

/-- The shared `validate_port` validator of `FirewallEndpoint`,
`FirewallRuleBase` ports and `PortForwardBase`: a single integer in
[1, 65535], or `start:end` with both in range and `start <= end`. A value
with more than one `:` makes the two-way unpacking itself raise. -/
def validatePortValue (v : String) : Except String String :=
  if v.data.contains ':' then
    match splitOnChar ':' v.data with
    | [start, stop] =>
        if !(pyIsDigitChars start) || !(pyIsDigitChars stop) then
          .error "Port range must contain only digits"
        else if digitsToNat start < 1 || digitsToNat start > 65535 ||
            digitsToNat stop < 1 || digitsToNat stop > 65535 then
          .error "Port numbers must be between 1 and 65535"
        else if digitsToNat start > digitsToNat stop then
          .error "Starting port must be less than ending port"
        else .ok v
    | _ => .error "too many values to unpack (expected 2)"
  else if !(pyIsDigit v) then .error "Port must be a number"
  else if digitsToNat v.data < 1 || digitsToNat v.data > 65535 then
    .error "Port must be between 1 and 65535"
  else .ok v

/-- `FirewallEndpoint` record: match target fields plus optional port. -/
structure FirewallEndpoint where
  network : Option String
  address : Option String
  port : Option String
  any : Bool
deriving Repr, DecidableEq

/-- `FirewallEndpoint` construction: the only validator is on `port`. -/
def mkFirewallEndpoint (network address port : Option String) (anyAddr : Bool) :
    Except String FirewallEndpoint :=
  match port with
  | Option.none => .ok ⟨network, address, Option.none, anyAddr⟩
  | some v =>
      match validatePortValue v with
      | .ok v' => .ok ⟨network, address, some v', anyAddr⟩
      | .error m => .error m

/-- `FirewallRuleCreate` (= `FirewallRuleBase`); no extra validator. -/
structure FirewallRuleCreate where
  type : RuleAction
  interface : String
  ipprotocol : IPProtocol
  protocol : Protocol
  source : FirewallEndpoint
  destination : FirewallEndpoint
  description : String
  direction : String
  statetype : String
  gateway : String
  quick : Bool
  disabled : Bool
deriving Repr, DecidableEq

/-- `PortForwardCreate` (= `PortForwardBase`). -/
structure PortForwardCreate where
  interface : String
  protocol : Protocol
  src_port : String
  dst_ip : String
  dst_port : String
  description : String
  src_ip : Option String
  enabled : Bool
deriving Repr, DecidableEq

/-- `PortForwardCreate` construction: enum coercion of `protocol`, then the
port validator on `src_port` and `dst_port` (fields validate in order). -/
def mkPortForwardCreate (interface protocol src_port dst_ip dst_port description : String) :
    Except String PortForwardCreate :=
  match Protocol.ofPyString? protocol with
  | Option.none => .error ("value is not a valid enumeration member; permitted: " ++ protocol)
  | some p =>
      match validatePortValue src_port with
      | .error m => .error m
      | .ok sp =>
          match validatePortValue dst_port with
          | .error m => .error m
          | .ok dp => .ok ⟨interface, p, sp, dst_ip, dp, description, Option.none, true⟩

/-- `VlanCreate` (= `VlanBase`). -/
structure VlanCreate where
  parent_if : String
  vlan_tag : Int
  description : String
  pcp : Int
deriving Repr, DecidableEq

/-- `VlanCreate` construction: `validate_vlan_tag` (1-4094) and
`validate_pcp` (0-7) from `api/models/network.py`. -/
def mkVlanCreate (parent_if : String) (vlan_tag : Int) (description : String) (pcp : Int) :
    Except String VlanCreate :=
  if vlan_tag < 1 ∨ vlan_tag > 4094 then .error "VLAN tag must be between 1 and 4094"
  else if pcp < 0 ∨ pcp > 7 then .error "PCP must be between 0 and 7"
  else .ok ⟨parent_if, vlan_tag, description, pcp⟩

/-- `VlanOut`. -/
structure VlanOut where
  parent_if : String
  vlan_tag : Int
  description : String
  pcp : Int
  uuid : String
  vlanif : String
deriving Repr, DecidableEq

/-- Shape check of `^\d{1,3}\.\d{1,3}\.\d{1,3}\.\d{1,3}$` (the IP validators
check digit-and-dot shape only, not the 0-255 octet range). -/
def ipShapeOk (s : String) : Bool :=
  match splitOnChar '.' s.data with
  | [a, b, c, d] => [a, b, c, d].all (fun p => pyIsDigitChars p && p.length ≤ 3)
  | _ => false

/-- `DHCPStaticMappingCreate` (= `DHCPStaticMappingBase`). -/
structure DHCPStaticMappingCreate where
  mac : String
  ipaddr : String
  hostname : String
  description : String
  winsserver : String
  dnsserver : String
  ntpserver : String
deriving Repr, DecidableEq

/-- `DHCPStaticMappingCreate` construction: `validate_mac` (MAC regex, then
lowercase the value) and `validate_ip` (digit-dot shape). The optional server
fields default to `""`. `str.lower()` is modelled per character by
`XmlUtils.pyLower`, which lowercases exactly the letters a valid MAC can
contain. -/
def mkDHCPStaticMappingCreate (mac ipaddr hostname description : String) :
    Except String DHCPStaticMappingCreate :=
  if !(XmlUtils.macPattern mac.data) then
    .error "MAC address must be in format xx:xx:xx:xx:xx:xx"
  else if !(ipShapeOk ipaddr) then
    .error "IP address must be in format x.x.x.x"
  else .ok ⟨⟨mac.data.map XmlUtils.pyLower⟩, ipaddr, hostname, description, "", "", ""⟩

/-- `PortMapping` from `api/models/container.py` (already validated at the
API boundary: ports in range, protocol in tcp/udp/both). -/
structure PortMapping where
  host_port : Int
  container_port : Int
  protocol : String
deriving Repr, DecidableEq

/-- `ContainerNetworkConfig` (already validated at the API boundary). -/
structure ContainerNetworkConfig where
  vlan_id : Int
  ip_address : String
  mac_address : String
  parent_interface : String
  allow_internet : Bool
deriving Repr, DecidableEq

/-- `ContainerCreate` as received by `ContainerService.deploy_container`. -/
structure ContainerCreate where
  name : String
  image : String
  network_config : ContainerNetworkConfig
  environment : List (String × String)
  ports : List PortMapping
  volumes : List (String × String)
  restart_policy : String
deriving Repr, DecidableEq

/-- `ContainerOut` (the fields relevant to the orchestration). -/
structure ContainerOut where
  name : String
  image : String
  network_config : ContainerNetworkConfig
  ports : List PortMapping
  id : String
  status : String
deriving Repr, DecidableEq

end Models

/-! ## OPNSense/services/config_manager.py : the XML-file backend -/

namespace ConfigService

/-- One child element of an `<interfaces>` entry or a `<vlan>` entry:
`(tag, text)`. `ET.Element.find(k)` is first-match, `ET.SubElement` appends. -/
def setChild : List (String × String) → String → String → List (String × String)
  | [], k, v => [(k, v)]
  | (t, x) :: rest, k, v =>
      if t == k then (t, v) :: rest else (t, x) :: setChild rest k v

/-- An interface element: its XML tag is the interface's logical name. -/
structure IfaceElem where
  tag : String
  children : List (String × String)
deriving Repr, DecidableEq

/-- A `<vlan>` element: the identifier lives in the `uuid` attribute, all
other fields are text children. -/
structure VlanElem where
  uuidAttr : String
  children : List (String × String)
deriving Repr, DecidableEq

/-- The configuration document: the `<interfaces>` and `<vlans>` sections
(`none` when the section element is absent), plus the sections this engine
never touches, kept opaque as `(tag, payload)` pairs. -/
structure ConfigDoc where
  interfaces : Option (List IfaceElem)
  vlans : Option (List VlanElem)
  others : List (String × String)
deriving Repr, DecidableEq

/-- Python `int(...)` applied to `dict.get(tag, 0)`: missing text gives the
default `0`; non-numeric text raises `ValueError`. -/
def pyIntOfText : Option String → Except String Int
  | Option.none => .ok 0
  | some s =>
      match s.toInt? with
      | some n => .ok n
      | Option.none => .error ("invalid literal for int() with base 10: " ++ s)

/-- Parsing one `<vlan>` element in `get_vlans` (file branch): children are
read under the keys `if`, `tag`, `descr`, `pcp`, `vlanif` with defaults; the
identifier comes from the `uuid` attribute. -/
def vlanOutOfElem (e : VlanElem) : Except String Models.VlanOut := do
  let tag ← pyIntOfText (e.children.lookup "tag")
  let pcp ← pyIntOfText (e.children.lookup "pcp")
  return { parent_if := (e.children.lookup "if").getD ""
           vlan_tag := tag
           description := (e.children.lookup "descr").getD ""
           pcp := pcp
           uuid := e.uuidAttr
           vlanif := (e.children.lookup "vlanif").getD "" }

/-- `OPNsenseConfigService.get_vlans` (file branch): absent `<vlans>` section
gives `[]`; a parse failure raises. -/
def get_vlans (doc : ConfigDoc) : Except String (List Models.VlanOut) :=
  match doc.vlans with
  | Option.none => .ok []
  | some elems => elems.mapM vlanOutOfElem

/-- The children written by `create_vlan` (file branch): `data.dict().items()`
in field order, each serialized with `str`, then the computed `vlanif`. -/
def vlanElemOf (data : Models.VlanCreate) (newUuid : String) : VlanElem :=
  ⟨newUuid,
   [("parent_if", data.parent_if), ("vlan_tag", toString data.vlan_tag),
    ("description", data.description), ("pcp", toString data.pcp),
    ("vlanif", data.parent_if ++ "_vlan" ++ toString data.vlan_tag)]⟩

/-- `OPNsenseConfigService.create_vlan` (file branch): creates the `<vlans>`
section if absent, appends a new `<vlan>` element with a fresh identifier
(the nondeterministic `uuid.uuid4()` is a parameter), computes
`vlanif = f"{parent_if}_vlan{vlan_tag}"`, saves, and returns the record.
No duplicate check of any kind is performed. -/
def create_vlan (doc : ConfigDoc) (data : Models.VlanCreate) (newUuid : String) :
    ConfigDoc × Models.VlanOut :=
  ({ doc with vlans := some ((doc.vlans.getD []) ++ [vlanElemOf data newUuid]) },
   { parent_if := data.parent_if, vlan_tag := data.vlan_tag,
     description := data.description, pcp := data.pcp,
     uuid := newUuid, vlanif := data.parent_if ++ "_vlan" ++ toString data.vlan_tag })

/-- The full VLAN-creation pipeline a caller goes through: pydantic
construction of `VlanCreate` (which can reject the request), then
`create_vlan` (which cannot fail). -/
def create_vlan_checked (doc : ConfigDoc) (parent_if : String) (vlan_tag : Int)
    (description : String) (pcp : Int) (newUuid : String) :
    Except String (ConfigDoc × Models.VlanOut) :=
  (Models.mkVlanCreate parent_if vlan_tag description pcp).map
    (fun data => create_vlan doc data newUuid)

/-- The logical `(parent, tag)` key of a stored `<vlan>` element, as raw
child texts. -/
def vlanElemKey (e : VlanElem) : Option String × Option String :=
  (e.children.lookup "parent_if", e.children.lookup "vlan_tag")

/-- Number of stored `<vlan>` elements carrying a given `(parent, tag)` key. -/
def vlanKeyCount (doc : ConfigDoc) (key : Option String × Option String) : Nat :=
  ((doc.vlans.getD []).filter (fun e => vlanElemKey e == key)).length

/-- A Python value as it appears in a pydantic `dict(exclude_unset=True)`. -/
inductive PyVal
  | pstr (s : String)
  | pint (n : Int)
  | pbool (b : Bool)
  | pnone
deriving Repr, DecidableEq

/-- Python `str(value)`. -/
def pyValStr : PyVal → String
  | .pstr s => s
  | .pint n => toString n
  | .pbool b => cond b "True" "False"
  | .pnone => "None"

/-- Python truthiness, used by `'1' if value else '0'`. -/
def pyTruthy : PyVal → Bool
  | .pstr s => !s.isEmpty
  | .pint n => n != 0
  | .pbool b => b
  | .pnone => false

/-- One iteration of the update loop of `update_interface` (file branch):
skip `name` and `None` values; rename `enabled` to `enable` serialized as
`"1"`/`"0"`; otherwise set the child to `str(value)` (first match or
append). -/
def applyFieldUpdate (children : List (String × String)) (key : String) (value : PyVal) :
    List (String × String) :=
  if key != "name" && value != PyVal.pnone then
    let k := if key == "enabled" then "enable" else key
    let v := if key == "enabled" then (if pyTruthy value then "1" else "0") else pyValStr value
    setChild children k v
  else children

/-- The whole update loop over `data.dict(exclude_unset=True).items()`. -/
def applyFieldUpdates (children : List (String × String)) :
    List (String × PyVal) → List (String × String)
  | [] => children
  | (k, v) :: rest => applyFieldUpdates (applyFieldUpdate children k v) rest

/-- Replace the first interface element with the given tag. -/
def updateFirstIface : List IfaceElem → String → (IfaceElem → IfaceElem) → List IfaceElem
  | [], _, _ => []
  | e :: rest, name, f =>
      if e.tag == name then f e :: rest else e :: updateFirstIface rest name f

/-- `OPNsenseConfigService.update_interface` (file branch): fails when the
`<interfaces>` section or the named element is absent; otherwise applies the
update loop to the first element whose tag is the interface name and saves.
The code then re-reads and returns the interface; here the updated element is
returned alongside the document. -/
def update_interface (doc : ConfigDoc) (name : String) (updates : List (String × PyVal)) :
    Except String (ConfigDoc × IfaceElem) :=
  match doc.interfaces with
  | Option.none => .error "No interfaces found in configuration"
  | some ifaces =>
      match ifaces.find? (fun e => e.tag == name) with
      | Option.none => .error ("Interface " ++ name ++ " not found")
      | some e =>
          .ok ({ doc with interfaces := some (updateFirstIface ifaces name
                    (fun x => ⟨x.tag, applyFieldUpdates x.children updates⟩)) },
               ⟨e.tag, applyFieldUpdates e.children updates⟩)

end ConfigService

/-! ## OPNSense/services/container_service.py : deployment orchestration -/

namespace ContainerService

/-- The combined mutable state a deployment touches: the XML document, the
would-be stores of the unimplemented backend operations, and the workloads
held by the container runtime. -/
structure SysState where
  doc : ConfigService.ConfigDoc
  static_mappings : List (String × Models.DHCPStaticMappingCreate)
  firewall_rules : List Models.FirewallRuleCreate
  cfg_port_forwards : List Models.PortForwardCreate
  containers : List Models.ContainerOut
deriving Repr, DecidableEq

/-- Outcome of one Python call: normal return, `NotImplementedError`, or any
other exception. The state component of an operation survives an exception
(Python has no rollback). -/
inductive PyOutcome (α : Type)
  | ok (a : α)
  | notImpl (msg : String)
  | exn (msg : String)
deriving Repr, DecidableEq

/-- The operations `deploy_container` invokes, as an explicit interface so
that the orchestration's error handling can be proved for any backend
behavior; `opnsenseFileBackend` below instantiates it with the real
`config_manager.py` code. -/
structure Backend where
  get_vlans : SysState → Except String (List Models.VlanOut)
  create_vlan : SysState → Models.VlanCreate → SysState × PyOutcome Models.VlanOut
  create_static_mapping : SysState → String → Models.DHCPStaticMappingCreate →
    SysState × PyOutcome Unit
  create_firewall_rule : SysState → Models.FirewallRuleCreate → SysState × PyOutcome Unit
  create_port_forward : SysState → Models.PortForwardCreate → SysState × PyOutcome Unit
  create_container : SysState → Models.ContainerCreate → SysState × PyOutcome Models.ContainerOut
  apply_firewall_changes : SysState → SysState × PyOutcome Unit
  apply_dhcp_changes : SysState → SysState × PyOutcome Unit

/-- Step 1 of `deploy_container`: list VLANs, scan for `(parent, tag)`, and
create the VLAN when no match is found. Nothing here catches
`NotImplementedError`, so it propagates like any exception. -/
def ensureVlan (B : Backend) (data : Models.ContainerCreate) (st : SysState) :
    SysState × PyOutcome Unit :=
  match B.get_vlans st with
  | .error m => (st, .exn m)
  | .ok vlans =>
      if vlans.any (fun v => v.parent_if == data.network_config.parent_interface &&
          v.vlan_tag == data.network_config.vlan_id) then
        (st, .ok ())
      else
        match Models.mkVlanCreate data.network_config.parent_interface
            data.network_config.vlan_id ("Container " ++ data.name ++ " VLAN") 0 with
        | .error m => (st, .exn m)
        | .ok vc =>
            match B.create_vlan st vc with
            | (st', PyOutcome.ok _) => (st', .ok ())
            | (st', PyOutcome.notImpl m) => (st', .notImpl m)
            | (st', PyOutcome.exn m) => (st', .exn m)

/-- Step 2: DHCP static mapping on `f"opt{vlan_id}"`, with
`except NotImplementedError` downgrading only that error to a warning. -/
def staticMappingStep (B : Backend) (data : Models.ContainerCreate) (interface_name : String)
    (st : SysState) : SysState × PyOutcome Unit :=
  match Models.mkDHCPStaticMappingCreate data.network_config.mac_address
      data.network_config.ip_address data.name ("Container " ++ data.name) with
  | .error m => (st, .exn m)
  | .ok d =>
      match B.create_static_mapping st interface_name d with
      | (st', PyOutcome.ok _) => (st', .ok ())
      | (st', PyOutcome.notImpl _) => (st', .ok ())
      | (st', PyOutcome.exn m) => (st', .exn m)

/-- Step 3: the internet-egress pass rule when `allow_internet`, with the
same `except NotImplementedError` downgrade. -/
def internetRuleStep (B : Backend) (data : Models.ContainerCreate) (interface_name : String)
    (st : SysState) : SysState × PyOutcome Unit :=
  if data.network_config.allow_internet then
    match Models.mkFirewallEndpoint (some interface_name) Option.none Option.none false with
    | .error m => (st, .exn m)
    | .ok src =>
        match Models.mkFirewallEndpoint Option.none Option.none Option.none true with
        | .error m => (st, .exn m)
        | .ok dst =>
            match B.create_firewall_rule st
                { type := .pass, interface := interface_name, ipprotocol := .inet,
                  protocol := .any, source := src, destination := dst,
                  description := "Allow " ++ data.name ++ " Internet Access",
                  direction := "in", statetype := "keep state", gateway := "",
                  quick := true, disabled := false } with
            | (st', PyOutcome.ok _) => (st', .ok ())
            | (st', PyOutcome.notImpl _) => (st', .ok ())
            | (st', PyOutcome.exn m) => (st', .exn m)
  else (st, .ok ())

/-- Step 4: one port-forward per port mapping (`wan`, `str(host_port)` to
`ip:str(container_port)`), each guarded by `except NotImplementedError`. -/
def portForwardSteps (B : Backend) (dst_ip cname : String) :
    SysState → List Models.PortMapping → SysState × PyOutcome Unit
  | st, [] => (st, .ok ())
  | st, p :: rest =>
      match Models.mkPortForwardCreate "wan" p.protocol (toString p.host_port) dst_ip
          (toString p.container_port) ("Container " ++ cname ++ " Port Forward") with
      | .error m => (st, .exn m)
      | .ok pf =>
          match B.create_port_forward st pf with
          | (st', PyOutcome.ok _) => portForwardSteps B dst_ip cname st' rest
          | (st', PyOutcome.notImpl _) => portForwardSteps B dst_ip cname st' rest
          | (st', PyOutcome.exn m) => (st', .exn m)

/-- The final apply block: `apply_firewall_changes` then `apply_dhcp_changes`
inside a single `except NotImplementedError`. -/
def applyChangesStep (B : Backend) (st : SysState) : SysState × PyOutcome Unit :=
  match B.apply_firewall_changes st with
  | (st', PyOutcome.notImpl _) => (st', .ok ())
  | (st', PyOutcome.exn m) => (st', .exn m)
  | (st', PyOutcome.ok _) =>
      match B.apply_dhcp_changes st' with
      | (st'', PyOutcome.notImpl _) => (st'', .ok ())
      | (st'', PyOutcome.exn m) => (st'', .exn m)
      | (st'', PyOutcome.ok _) => (st'', .ok ())

/-- `ContainerService.deploy_container`: the strictly sequential orchestration.
Step 5 (the HTTP-ingress note for container ports 80/443) only logs and is
state-free. The outer `except Exception` logs and re-raises, so any
uncaught exception surfaces unchanged while keeping all earlier state
mutations (no rollback). -/
def deploy_container (B : Backend) (data : Models.ContainerCreate) (st : SysState) :
    SysState × PyOutcome Models.ContainerOut :=
  match ensureVlan B data st with
  | (st1, PyOutcome.exn m) => (st1, .exn m)
  | (st1, PyOutcome.notImpl m) => (st1, .notImpl m)
  | (st1, PyOutcome.ok _) =>
      match staticMappingStep B data ("opt" ++ toString data.network_config.vlan_id) st1 with
      | (st2, PyOutcome.exn m) => (st2, .exn m)
      | (st2, PyOutcome.notImpl m) => (st2, .notImpl m)
      | (st2, PyOutcome.ok _) =>
          match internetRuleStep B data ("opt" ++ toString data.network_config.vlan_id) st2 with
          | (st3, PyOutcome.exn m) => (st3, .exn m)
          | (st3, PyOutcome.notImpl m) => (st3, .notImpl m)
          | (st3, PyOutcome.ok _) =>
              match portForwardSteps B data.network_config.ip_address data.name st3 data.ports with
              | (st4, PyOutcome.exn m) => (st4, .exn m)
              | (st4, PyOutcome.notImpl m) => (st4, .notImpl m)
              | (st4, PyOutcome.ok _) =>
                  match B.create_container st4 data with
                  | (st5, PyOutcome.exn m) => (st5, .exn m)
                  | (st5, PyOutcome.notImpl m) => (st5, .notImpl m)
                  | (st5, PyOutcome.ok container) =>
                      match applyChangesStep B st5 with
                      | (st6, PyOutcome.exn m) => (st6, .exn m)
                      | (st6, PyOutcome.notImpl m) => (st6, .notImpl m)
                      | (st6, PyOutcome.ok _) => (st6, .ok container)

/-- Modelled from the spec: the workload-lifecycle collaborator
`create(spec) -> WorkloadRecord` (external interface of section 6; the
container runtime behind `_docker_api_request` is outside this repository).
Creation appends the workload record and returns it. -/
def dockerCreateContainer (containerId : String) (st : SysState)
    (data : Models.ContainerCreate) : SysState × PyOutcome Models.ContainerOut :=
  let out : Models.ContainerOut :=
    { name := data.name, image := data.image, network_config := data.network_config,
      ports := data.ports, id := containerId, status := "running" }
  ({ st with containers := st.containers ++ [out] }, .ok out)

/-- The backend `deploy_container` actually runs against in file mode:
`get_vlans`/`create_vlan` are the XML-file implementations; static mappings,
firewall rules and port forwards raise `NotImplementedError`
(`config_manager.py` placeholder methods); both apply calls return a success
dict; containers go to the runtime collaborator. The fresh VLAN identifier
and container identifier are parameters. -/
def opnsenseFileBackend (vlanUuid containerId : String) : Backend where
  get_vlans st := ConfigService.get_vlans st.doc
  create_vlan st vc :=
    let r := ConfigService.create_vlan st.doc vc vlanUuid
    ({ st with doc := r.1 }, .ok r.2)
  create_static_mapping st _ _ := (st, .notImpl "DHCP static mapping methods not implemented")
  create_firewall_rule st _ := (st, .notImpl "Firewall rule methods not implemented")
  create_port_forward st _ := (st, .notImpl "Port forwarding methods not implemented")
  create_container st data := dockerCreateContainer containerId st data
  apply_firewall_changes st := (st, .ok ())
  apply_dhcp_changes st := (st, .ok ())

end ContainerService

/-! ## Claim-side predicates (stated from the specification's wording, for
comparison against the embedded code) and concrete scenario instances. -/

/-- Number of match selectors set on an endpoint; the specification's
invariant says every accepted endpoint has exactly one of
`{any, network, address}`. -/
def Models.selectorCount (e : Models.FirewallEndpoint) : Nat :=
  (cond e.network.isSome 1 0) + (cond e.address.isSome 1 0) + (cond e.any 1 0)

namespace DeploymentService

/-- The port-conflict condition exactly as claim C4 words it: an existing
port-forward for the `(port, protocol)` pair that targets a different
destination than the requested mapping (the workload's address and the
mapping's container port), or another workload claiming the pair. -/
def portConflictClaimed (st : OrmState) (dep : DeploymentDict) (p : PortDict) : Prop :=
  (∃ f ∈ st.port_forwards,
      f.src_port = pyStrOfOptInt p.host_port ∧ f.protocol = p.protocol.getD "tcp" ∧
      ¬(some f.dst_ip = (dep.network_config.getD ⟨none, none, none⟩).ip_address ∧
        some f.dst_port = p.container_port.map (fun n => toString n))) ∨
  (∃ c ∈ st.containers,
      (∃ e ∈ c.ports, some e.host_port = p.host_port ∧ e.protocol = p.protocol.getD "tcp") ∧
      some c.name ≠ dep.name)

/-- The port-conflict condition the code actually implements (the amended
claim): any existing port-forward for the `(port, protocol)` pair —
regardless of its destination — or another workload claiming the pair. -/
def portConflictAmended (st : OrmState) (depName : Option String) (p : PortDict) : Prop :=
  (∃ f ∈ st.port_forwards,
      f.src_port = pyStrOfOptInt p.host_port ∧ f.protocol = p.protocol.getD "tcp") ∨
  (∃ c ∈ st.containers,
      (∃ e ∈ c.ports, some e.host_port = p.host_port ∧ e.protocol = p.protocol.getD "tcp") ∧
      some c.name ≠ depName)

end DeploymentService

/-- C2: stored state with VLAN tag 100 on `igc0` described for another app. -/
def otherAppVlanState : OrmState :=
  ⟨[⟨"igc0", 100, "Container other-app VLAN"⟩], [], [], []⟩

/-- C2: deploy request for workload `db` on VLAN 100 (no other resource
overlaps). -/
def dbDeployment : DeploymentService.DeploymentDict :=
  ⟨some "db", some ⟨some 100, some "10.0.100.5", some "aa:bb:cc:dd:ee:01"⟩, some []⟩

/-- C4: stored state whose only resource is a port-forward of 8080/tcp to
`10.0.150.10:80`. -/
def forwardedState : OrmState :=
  ⟨[], [], [], [⟨"8080", "tcp", "10.0.150.10", "80"⟩]⟩

/-- C4: the requested mapping 8080/tcp -> container port 80. -/
def web1PortDict : DeploymentService.PortDict := ⟨some 8080, some 80, some "tcp"⟩

/-- C4: deploy request for `web1` at `10.0.150.10` mapping 8080/tcp to 80 —
the same destination the existing forward already targets. -/
def web1Deployment : DeploymentService.DeploymentDict :=
  ⟨some "web1", some ⟨some 150, some "10.0.150.10", some "aa:bb:cc:dd:ee:ff"⟩,
   some [web1PortDict]⟩

/-- An empty configuration document (no sections at all). -/
def emptyConfigDoc : ConfigService.ConfigDoc := ⟨none, none, []⟩

/-- C1: the empty backend state. -/
def emptySysState : ContainerService.SysState := ⟨emptyConfigDoc, [], [], [], []⟩

/-- C1: the end-to-end deploy request of the specification. -/
def web1Request : Models.ContainerCreate :=
  { name := "web1", image := "nginx:latest",
    network_config := { vlan_id := 150, ip_address := "10.0.150.10",
                        mac_address := "aa:bb:cc:dd:ee:ff", parent_interface := "igc2",
                        allow_internet := true },
    environment := [], ports := [⟨8080, 80, "tcp"⟩], volumes := [],
    restart_policy := "unless-stopped" }

/-- C1: the workload record the runtime collaborator returns for `web1`. -/
def web1Workload : Models.ContainerOut :=
  { name := "web1", image := "nginx:latest",
    network_config := web1Request.network_config,
    ports := web1Request.ports, id := "cid-1", status := "running" }

/-- C1: the single `<vlan>` element the deployment writes. -/
def web1VlanElem : ConfigService.VlanElem :=
  ⟨"u-1",
   [("parent_if", "igc2"), ("vlan_tag", "150"),
    ("description", "Container web1 VLAN"), ("pcp", "0"),
    ("vlanif", "igc2_vlan150")]⟩

/-- C1: the full state after deploying `web1` on the empty backend. -/
def web1FinalState : ContainerService.SysState :=
  ⟨⟨none, some [web1VlanElem], []⟩, [], [], [], [web1Workload]⟩

/-- C3: a document already holding a VLAN with key `(igc0, 100)` (stored in
the exact child layout `create_vlan` writes). -/
def igc0VlanElem : ConfigService.VlanElem :=
  ConfigService.vlanElemOf ⟨"igc0", 100, "Container other-app VLAN", 0⟩ "u-0"

/-- C3: the colliding element a second `create_vlan` call appends. -/
def igc0VlanElemDup : ConfigService.VlanElem :=
  ConfigService.vlanElemOf ⟨"igc0", 100, "Container db VLAN", 0⟩ "u-9"

/-- C3: the starting document for the duplicate-key scenario. -/
def igc0VlanDoc : ConfigService.ConfigDoc := ⟨none, some [igc0VlanElem], []⟩

/-- C3: the document after the colliding create: two elements with the same
`(parent, tag)` key. -/
def igc0VlanDocAfter : ConfigService.ConfigDoc :=
  ⟨none, some [igc0VlanElem, igc0VlanElemDup], []⟩

/-- C5: the residual behavior of `deploy_container` on a backend whose
static-mapping, firewall-rule, port-forward and apply operations are all
unimplemented: ensure the VLAN, then hand over to workload creation. -/
def ContainerService.deployVlanContainerOnly (B : ContainerService.Backend)
    (data : Models.ContainerCreate) (st : ContainerService.SysState) :
    ContainerService.SysState × ContainerService.PyOutcome Models.ContainerOut :=
  match ContainerService.ensureVlan B data st with
  | (st1, ContainerService.PyOutcome.exn m) => (st1, .exn m)
  | (st1, ContainerService.PyOutcome.notImpl m) => (st1, .notImpl m)
  | (st1, ContainerService.PyOutcome.ok _) => B.create_container st1 data

/-- C5 witness backend: VLAN already present, every step-2/3/4 operation and
both apply operations unimplemented, workload creation succeeds. -/
def scriptedNotImplBackend : ContainerService.Backend where
  get_vlans _ := .ok [{ parent_if := "igc2", vlan_tag := 150,
                        description := "Container web1 VLAN", pcp := 0,
                        uuid := "u-0", vlanif := "igc2_vlan150" }]
  create_vlan st vc := (st, .ok { parent_if := vc.parent_if, vlan_tag := vc.vlan_tag,
                                  description := vc.description, pcp := vc.pcp,
                                  uuid := "u-0",
                                  vlanif := vc.parent_if ++ "_vlan" ++ toString vc.vlan_tag })
  create_static_mapping st _ _ := (st, .notImpl "ni")
  create_firewall_rule st _ := (st, .notImpl "ni")
  create_port_forward st _ := (st, .notImpl "ni")
  create_container st data := ContainerService.dockerCreateContainer "cid-9" st data
  apply_firewall_changes st := (st, .notImpl "ni")
  apply_dhcp_changes st := (st, .notImpl "ni")

/-- C5 witness backend whose workload creation raises a non-NotImplemented
exception. -/
def failingCreateBackend : ContainerService.Backend :=
  { scriptedNotImplBackend with create_container := fun st _ => (st, .exn "boom") }

/-- C5 witness backend whose static-mapping creation raises a
non-NotImplemented exception inside the guarded step. -/
def failingMappingBackend : ContainerService.Backend :=
  { scriptedNotImplBackend with create_static_mapping := fun st _ _ => (st, .exn "boom") }

/-- C6 witness: a `lan` interface element with several fields. -/
def lanIfaceElem : ConfigService.IfaceElem :=
  ⟨"lan",
   [("uuid", "u-lan"), ("if", "igc0"), ("descr", "LAN"),
    ("ipaddr", "192.168.1.1"), ("subnet", "24"), ("enable", "1")]⟩

/-- C6 witness: a second interface that must stay untouched. -/
def wanIfaceElem : ConfigService.IfaceElem :=
  ⟨"wan", [("uuid", "u-wan"), ("if", "igc1"), ("enable", "1")]⟩

/-- C6 witness: a document holding both interfaces, one VLAN and an opaque
foreign section. -/
def lanWanDoc : ConfigService.ConfigDoc :=
  ⟨some [lanIfaceElem, wanIfaceElem], some [igc0VlanElem], [("system", "hostname opnsense")]⟩

/-!
# Theorems for the specification claims
-/

/-- C2: an existing VLAN with tag 100 on `igc0` described
`Container other-app VLAN` makes validation of the `db` deployment on
VLAN 100 return `valid = false` with a non-empty `conflicts.vlan` list.
`validate_deployment` and `detect_conflicts` are embedded as pure functions
of the stored state (the source only issues read-only queryset lookups), so
validation creates no VLAN and mutates nothing by construction. -/
theorem validate_db_vlan_conflict :
    (DeploymentService.validate_deployment otherAppVlanState dbDeployment).valid = false ∧
    (DeploymentService.validate_deployment otherAppVlanState dbDeployment).conflicts =
      some [("vlan", ["VLAN 100 is already in use by \x27Container other-app VLAN\x27"])] :=
  ⟨rfl, rfl⟩

/-- C1 counterexample: on the empty backend the `web1` deployment returns the
created workload, but the static-mapping, firewall-rule and port-forward
stores all stay empty (the claim asserts exactly one of each is created;
the backend operations raise `NotImplementedError` and the orchestrator
skips them). -/
theorem deploy_web1_creates_no_mapping_rule_or_forward :
    (ContainerService.deploy_container (ContainerService.opnsenseFileBackend "u-1" "cid-1")
        web1Request emptySysState).2 = .ok web1Workload ∧
    (ContainerService.deploy_container (ContainerService.opnsenseFileBackend "u-1" "cid-1")
        web1Request emptySysState).1.static_mappings.length = 0 ∧
    (ContainerService.deploy_container (ContainerService.opnsenseFileBackend "u-1" "cid-1")
        web1Request emptySysState).1.firewall_rules.length = 0 ∧
    (ContainerService.deploy_container (ContainerService.opnsenseFileBackend "u-1" "cid-1")
        web1Request emptySysState).1.cfg_port_forwards.length = 0 :=
  ⟨rfl, rfl, rfl, rfl⟩

/-- C1 amended: the `web1` deployment on the empty backend creates exactly
one VLAN (tag 150 on `igc2`, stored with `vlanif = igc2_vlan150`); the
static-mapping, internet-egress-rule and port-forward steps hit the
unimplemented backend operations and are skipped with warnings (creating
nothing); the workload is then created and the call returns it
successfully. -/
theorem deploy_web1_amended_behavior :
    ContainerService.deploy_container (ContainerService.opnsenseFileBackend "u-1" "cid-1")
        web1Request emptySysState = (web1FinalState, .ok web1Workload) :=
  rfl

/-- C3 counterexample: `create_vlan` on a document already holding the key
`(igc0, 100)` succeeds and appends a second element with the same
`(parent, tag)` pair instead of failing with `AlreadyExists`. -/
theorem create_vlan_duplicate_pair_accepted :
    ConfigService.create_vlan_checked igc0VlanDoc "igc0" 100 "Container db VLAN" 0 "u-9" =
      .ok (igc0VlanDocAfter,
           { parent_if := "igc0", vlan_tag := 100, description := "Container db VLAN",
             pcp := 0, uuid := "u-9", vlanif := "igc0_vlan100" }) ∧
    ConfigService.vlanKeyCount igc0VlanDoc (some "igc0", some "100") = 1 ∧
    ConfigService.vlanKeyCount igc0VlanDocAfter (some "igc0", some "100") = 2 :=
  ⟨rfl, rfl, rfl⟩

/-- C8 counterexample: endpoints with three selectors set and with none set
are both accepted by construction — the exactly-one-of `{any, network,
address}` invariant is not enforced anywhere in `FirewallEndpoint`. -/
theorem firewall_endpoint_exclusivity_not_enforced :
    Models.mkFirewallEndpoint (some "lan") (some "10.0.0.1") none true =
      .ok ⟨some "lan", some "10.0.0.1", none, true⟩ ∧
    Models.selectorCount ⟨some "lan", some "10.0.0.1", none, true⟩ = 3 ∧
    Models.mkFirewallEndpoint none none none false = .ok ⟨none, none, none, false⟩ ∧
    Models.selectorCount ⟨none, none, none, false⟩ = 0 :=
  ⟨rfl, rfl, rfl, rfl⟩

/-- Appending a `<vlan>` element whose key matches raises the key count by
one. -/
theorem vlanKeyCount_append_match (doc : ConfigService.ConfigDoc)
    (e : ConfigService.VlanElem) (key : Option String × Option String)
    (h : ConfigService.vlanElemKey e = key) :
    ConfigService.vlanKeyCount
      { doc with vlans := some ((doc.vlans.getD []) ++ [e]) } key =
    ConfigService.vlanKeyCount doc key + 1 := by
  simp [ConfigService.vlanKeyCount, List.filter_append, List.filter, h]

/-- The `(parent, tag)` key stored for a freshly created VLAN element. -/
theorem vlanElemOf_key (data : Models.VlanCreate) (u : String) :
    ConfigService.vlanElemKey (ConfigService.vlanElemOf data u) =
      (some data.parent_if, some (toString data.vlan_tag)) := rfl

/-- C3 amended: `create_vlan` performs no `(parent, tag)` uniqueness check.
For every request passing field validation it succeeds and appends a new
element, so the number of stored elements carrying the request's
`(parent, tag)` key always grows by one — in particular a colliding request
yields a second entry with the same pair instead of an `AlreadyExists`
failure. -/
theorem create_vlan_appends_unconditionally :
    ∀ (doc : ConfigService.ConfigDoc) (parent : String) (tag : Int) (desc : String)
      (pcp : Int) (u : String),
      1 ≤ tag → tag ≤ 4094 → 0 ≤ pcp → pcp ≤ 7 →
      ∃ doc' out,
        ConfigService.create_vlan_checked doc parent tag desc pcp u = .ok (doc', out) ∧
        ConfigService.vlanKeyCount doc' (some parent, some (toString tag)) =
          ConfigService.vlanKeyCount doc (some parent, some (toString tag)) + 1 := by
  intro doc parent tag desc pcp u h1 h2 h3 h4
  refine ⟨(ConfigService.create_vlan doc ⟨parent, tag, desc, pcp⟩ u).1,
          (ConfigService.create_vlan doc ⟨parent, tag, desc, pcp⟩ u).2, ?_, ?_⟩
  · unfold ConfigService.create_vlan_checked Models.mkVlanCreate
    rw [if_neg (by omega), if_neg (by omega)]
    rfl
  · exact vlanKeyCount_append_match doc _ _ (vlanElemOf_key ⟨parent, tag, desc, pcp⟩ u)

/-- C3 amended, witness: a concrete colliding create succeeds and doubles
the key count. -/
theorem create_vlan_appends_unconditionally_witness :
    ∃ doc' out,
      ConfigService.create_vlan_checked igc0VlanDoc "igc0" 100 "Container web2 VLAN" 0 "u-3" =
        .ok (doc', out) ∧
      ConfigService.vlanKeyCount doc' (some "igc0", some "100") =
        ConfigService.vlanKeyCount igc0VlanDoc (some "igc0", some "100") + 1 :=
  create_vlan_appends_unconditionally igc0VlanDoc "igc0" 100 "Container web2 VLAN" 0 "u-3"
    (by norm_num) (by norm_num) (by norm_num) (by norm_num)

/-- C7: for a creation request with tag in [1, 4094] (and a valid priority
code point) the pipeline succeeds and both the returned record and the
stored element carry `vlanif = parent ++ "_vlan" ++ tag`; for a tag outside
[1, 4094] the pydantic validator rejects the request, so `create_vlan` is
never reached and no VLAN is created (the pipeline returns only the
error). -/
theorem create_vlan_vlanif_and_tag_range :
    ∀ (doc : ConfigService.ConfigDoc) (parent : String) (tag : Int) (desc : String)
      (pcp : Int) (u : String),
      (1 ≤ tag → tag ≤ 4094 → 0 ≤ pcp → pcp ≤ 7 →
        ∃ doc' out,
          ConfigService.create_vlan_checked doc parent tag desc pcp u = .ok (doc', out) ∧
          out.vlanif = parent ++ "_vlan" ++ toString tag ∧
          doc'.vlans = some ((doc.vlans.getD []) ++
            [ConfigService.vlanElemOf ⟨parent, tag, desc, pcp⟩ u]) ∧
          (ConfigService.vlanElemOf ⟨parent, tag, desc, pcp⟩ u).children.lookup "vlanif" =
            some (parent ++ "_vlan" ++ toString tag)) ∧
      ((tag < 1 ∨ tag > 4094) →
        ConfigService.create_vlan_checked doc parent tag desc pcp u =
          .error "VLAN tag must be between 1 and 4094") := by
  intro doc parent tag desc pcp u
  constructor
  · intro h1 h2 h3 h4
    refine ⟨(ConfigService.create_vlan doc ⟨parent, tag, desc, pcp⟩ u).1,
            (ConfigService.create_vlan doc ⟨parent, tag, desc, pcp⟩ u).2, ?_, rfl, rfl, rfl⟩
    unfold ConfigService.create_vlan_checked Models.mkVlanCreate
    rw [if_neg (by omega), if_neg (by omega)]
    rfl
  · intro h
    unfold ConfigService.create_vlan_checked Models.mkVlanCreate
    rw [if_pos (by omega)]
    rfl

/-- C7 witness: tag 150 on `igc2` yields `vlanif = igc2_vlan150`; tag 5000
is rejected by validation. -/
theorem create_vlan_vlanif_and_tag_range_witness :
    (∃ doc' out,
      ConfigService.create_vlan_checked emptyConfigDoc "igc2" 150 "d" 0 "u-7" =
        .ok (doc', out) ∧
      out.vlanif = "igc2" ++ "_vlan" ++ toString (150 : Int) ∧
      doc'.vlans = some ((emptyConfigDoc.vlans.getD []) ++
        [ConfigService.vlanElemOf ⟨"igc2", 150, "d", 0⟩ "u-7"]) ∧
      (ConfigService.vlanElemOf ⟨"igc2", 150, "d", 0⟩ "u-7").children.lookup "vlanif" =
        some ("igc2" ++ "_vlan" ++ toString (150 : Int))) ∧
    ConfigService.create_vlan_checked emptyConfigDoc "igc2" 5000 "d" 0 "u-7" =
      .error "VLAN tag must be between 1 and 4094" :=
  ⟨(create_vlan_vlanif_and_tag_range emptyConfigDoc "igc2" 150 "d" 0 "u-7").1
      (by norm_num) (by norm_num) (by norm_num) (by norm_num),
   (create_vlan_vlanif_and_tag_range emptyConfigDoc "igc2" 5000 "d" 0 "u-7").2
      (Or.inr (by norm_num))⟩

/-- `setChild` sets the looked-up value at its key. -/
theorem setChild_lookup_self (l : List (String × String)) (k v : String) :
    (ConfigService.setChild l k v).lookup k = some v := by
  induction l with
  | nil => simp [ConfigService.setChild, List.lookup]
  | cons p t ih =>
      obtain ⟨a, b⟩ := p
      by_cases h : a = k
      · subst h
        simp [ConfigService.setChild, List.lookup]
      · have hak : (a == k) = false := beq_eq_false_iff_ne.mpr h
        have hka : (k == a) = false := beq_eq_false_iff_ne.mpr (Ne.symm h)
        simp [ConfigService.setChild, List.lookup, hak, hka, ih]

/-- `setChild` leaves every other key's looked-up value unchanged. -/
theorem setChild_lookup_ne (l : List (String × String)) (k v k' : String) (hne : k' ≠ k) :
    (ConfigService.setChild l k v).lookup k' = l.lookup k' := by
  induction l with
  | nil => simp [ConfigService.setChild, List.lookup, beq_eq_false_iff_ne.mpr hne]
  | cons p t ih =>
      obtain ⟨a, b⟩ := p
      by_cases h : a = k
      · subst h
        simp [ConfigService.setChild, List.lookup, beq_eq_false_iff_ne.mpr hne]
      · have hak : (a == k) = false := beq_eq_false_iff_ne.mpr h
        by_cases h2 : k' = a
        · subst h2
          simp [ConfigService.setChild, List.lookup, hak]
        · simp [ConfigService.setChild, List.lookup, hak,
            beq_eq_false_iff_ne.mpr h2, ih]

/-- A successful `find?` splits its list at the first match. -/
theorem find_split {α : Type} (p : α → Bool) :
    ∀ (l : List α) (x : α), l.find? p = some x →
      ∃ pre post, l = pre ++ x :: post ∧ (∀ y ∈ pre, p y = false) ∧ p x = true := by
  intro l
  induction l with
  | nil => intro x h; simp [List.find?] at h
  | cons a t ih =>
      intro x h
      by_cases ha : p a = true
      · rw [List.find?_cons_of_pos _ ha] at h
        obtain rfl : a = x := Option.some.inj h
        refine ⟨[], t, rfl, ?_, ha⟩
        intro y hy
        exact absurd hy (List.not_mem_nil y)
      · rw [List.find?_cons_of_neg _ ha] at h
        obtain ⟨pre, post, heq, hpre, hx⟩ := ih x h
        refine ⟨a :: pre, post, by rw [heq]; rfl, ?_, hx⟩
        intro y hy
        rcases List.mem_cons.mp hy with rfl | hy
        · exact Bool.not_eq_true _ ▸ Bool.of_not_eq_true ha
        · exact hpre y hy

/-- Replacing the first matching interface element rewrites exactly the
first match, leaving every element before and after it unchanged. -/
theorem updateFirstIface_append (pre : List ConfigService.IfaceElem)
    (e : ConfigService.IfaceElem) (post : List ConfigService.IfaceElem)
    (name : String) (f : ConfigService.IfaceElem → ConfigService.IfaceElem)
    (hpre : ∀ x ∈ pre, (x.tag == name) = false) (he : (e.tag == name) = true) :
    ConfigService.updateFirstIface (pre ++ e :: post) name f = pre ++ f e :: post := by
  induction pre with
  | nil => simp [ConfigService.updateFirstIface, he]
  | cons a t ih =>
      have ha := hpre a (List.mem_cons_self a t)
      have ih' := ih (fun x hx => hpre x (List.mem_cons_of_mem a hx))
      simp only [List.cons_append, ConfigService.updateFirstIface, ha, Bool.false_eq_true,
        if_false]
      simp [ih']

/-- C6: updating an existing interface with `{enabled: false}` as the only
set field rewrites only that interface's `enable` child (to `"0"`): every
other child of that interface keeps its looked-up value, every other
interface element is untouched, and the rest of the document (`<vlans>` and
all foreign sections) is returned unchanged. -/
theorem update_interface_enabled_only_frame :
    ∀ (doc : ConfigService.ConfigDoc) (name : String)
      (ifaces : List ConfigService.IfaceElem) (e0 : ConfigService.IfaceElem),
      doc.interfaces = some ifaces →
      ifaces.find? (fun e => e.tag == name) = some e0 →
      ∃ pre post e',
        ifaces = pre ++ e0 :: post ∧
        ConfigService.update_interface doc name [("enabled", ConfigService.PyVal.pbool false)] =
          .ok ({ doc with interfaces := some (pre ++ e' :: post) }, e') ∧
        e'.tag = e0.tag ∧
        e'.children.lookup "enable" = some "0" ∧
        (∀ k, k ≠ "enable" → e'.children.lookup k = e0.children.lookup k) := by
  intro doc name ifaces e0 hdoc hfind
  obtain ⟨pre, post, heq, hpre, he0⟩ := find_split _ ifaces e0 hfind
  refine ⟨pre, post, ⟨e0.tag, ConfigService.setChild e0.children "enable" "0"⟩, heq, ?_, rfl,
    setChild_lookup_self _ _ _, fun k hk => setChild_lookup_ne _ _ _ _ hk⟩
  simp only [ConfigService.update_interface, hdoc, hfind]
  rw [heq, updateFirstIface_append pre e0 post name _ hpre he0]
  rfl

/-- C6 witness: updating `lan` in the two-interface document. -/
theorem update_interface_enabled_only_frame_witness :
    ∃ pre post e',
      [lanIfaceElem, wanIfaceElem] = pre ++ lanIfaceElem :: post ∧
      ConfigService.update_interface lanWanDoc "lan"
          [("enabled", ConfigService.PyVal.pbool false)] =
        .ok ({ lanWanDoc with interfaces := some (pre ++ e' :: post) }, e') ∧
      e'.tag = lanIfaceElem.tag ∧
      e'.children.lookup "enable" = some "0" ∧
      (∀ k, k ≠ "enable" → e'.children.lookup k = lanIfaceElem.children.lookup k) :=
  update_interface_enabled_only_frame lanWanDoc "lan" [lanIfaceElem, wanIfaceElem]
    lanIfaceElem rfl rfl

/-- When the backend's static-mapping creation raises `NotImplementedError`
(and the request data itself validates), step 2 degrades to a warning and
leaves the state untouched. -/
theorem staticMappingStep_skips_notImpl (B : ContainerService.Backend)
    (data : Models.ContainerCreate) (iname : String) (st : ContainerService.SysState)
    (m : String)
    (hd : ∃ d, Models.mkDHCPStaticMappingCreate data.network_config.mac_address
        data.network_config.ip_address data.name ("Container " ++ data.name) = .ok d)
    (hsm : ∀ s i d, B.create_static_mapping s i d = (s, .notImpl m)) :
    ContainerService.staticMappingStep B data iname st = (st, .ok ()) := by
  obtain ⟨d, hd⟩ := hd
  simp [ContainerService.staticMappingStep, hd, hsm]

/-- Same for step 3 (the internet-egress rule). -/
theorem internetRuleStep_skips_notImpl (B : ContainerService.Backend)
    (data : Models.ContainerCreate) (iname : String) (st : ContainerService.SysState)
    (m : String) (hfw : ∀ s r, B.create_firewall_rule s r = (s, .notImpl m)) :
    ContainerService.internetRuleStep B data iname st = (st, .ok ()) := by
  cases h : data.network_config.allow_internet <;>
    simp [ContainerService.internetRuleStep, h, Models.mkFirewallEndpoint, hfw]

/-- Same for step 4 (all port forwards). -/
theorem portForwardSteps_skips_notImpl (B : ContainerService.Backend) (ip nm m : String) :
    ∀ (ports : List Models.PortMapping) (st : ContainerService.SysState),
      (∀ p ∈ ports, ∃ pf, Models.mkPortForwardCreate "wan" p.protocol (toString p.host_port)
          ip (toString p.container_port) ("Container " ++ nm ++ " Port Forward") = .ok pf) →
      (∀ s q, B.create_port_forward s q = (s, .notImpl m)) →
      ContainerService.portForwardSteps B ip nm st ports = (st, .ok ()) := by
  intro ports
  induction ports with
  | nil => intro st _ _; rfl
  | cons p rest ih =>
      intro st hp hpf
      obtain ⟨pf, hpfc⟩ := hp p (List.mem_cons_self p rest)
      have ih' := ih st (fun q hq => hp q (List.mem_cons_of_mem p hq)) hpf
      simp [ContainerService.portForwardSteps, hpfc, hpf, ih']

/-- Same for the final apply block. -/
theorem applyChangesStep_skips_notImpl (B : ContainerService.Backend)
    (st : ContainerService.SysState) (m : String)
    (hap : ∀ s, B.apply_firewall_changes s = (s, .notImpl m)) :
    ContainerService.applyChangesStep B st = (st, .ok ()) := by
  simp [ContainerService.applyChangesStep, hap]

/-- An exception other than `NotImplementedError` in the guarded
static-mapping step is not caught there. -/
theorem staticMappingStep_propagates_exn (B : ContainerService.Backend)
    (data : Models.ContainerCreate) (iname : String) (st : ContainerService.SysState)
    (m : String)
    (hd : ∃ d, Models.mkDHCPStaticMappingCreate data.network_config.mac_address
        data.network_config.ip_address data.name ("Container " ++ data.name) = .ok d)
    (hsme : ∀ s i d, B.create_static_mapping s i d = (s, .exn m)) :
    ContainerService.staticMappingStep B data iname st = (st, .exn m) := by
  obtain ⟨d, hd⟩ := hd
  simp [ContainerService.staticMappingStep, hd, hsme]

/-- C5: the orchestration's error policy. (1) When the static-mapping,
firewall-rule, port-forward and apply operations all raise
`NotImplementedError` (and the request data validates), every such step is
downgraded to a warning and the whole deployment collapses to
ensure-VLAN-then-create-workload. (2) A non-NotImplemented exception in the
workload-creation step aborts the deployment and is re-raised, with the
state still holding everything earlier steps created (no rollback). (3) A
non-NotImplemented exception inside a guarded step (static mapping) is not
caught by the `except NotImplementedError` handler: it likewise aborts and
propagates. -/
theorem deploy_error_handling_policy :
    (∀ (B : ContainerService.Backend) (data : Models.ContainerCreate)
       (st : ContainerService.SysState) (m1 m2 m3 m4 : String),
       (∃ d, Models.mkDHCPStaticMappingCreate data.network_config.mac_address
           data.network_config.ip_address data.name ("Container " ++ data.name) = .ok d) →
       (∀ p ∈ data.ports, ∃ pf, Models.mkPortForwardCreate "wan" p.protocol
           (toString p.host_port) data.network_config.ip_address
           (toString p.container_port)
           ("Container " ++ data.name ++ " Port Forward") = .ok pf) →
       (∀ s i d, B.create_static_mapping s i d = (s, .notImpl m1)) →
       (∀ s r, B.create_firewall_rule s r = (s, .notImpl m2)) →
       (∀ s q, B.create_port_forward s q = (s, .notImpl m3)) →
       (∀ s, B.apply_firewall_changes s = (s, .notImpl m4)) →
       ContainerService.deploy_container B data st =
         ContainerService.deployVlanContainerOnly B data st) ∧
    (∀ (B : ContainerService.Backend) (data : Models.ContainerCreate)
       (st st1 : ContainerService.SysState) (m m1 m2 m3 : String),
       (∃ d, Models.mkDHCPStaticMappingCreate data.network_config.mac_address
           data.network_config.ip_address data.name ("Container " ++ data.name) = .ok d) →
       (∀ p ∈ data.ports, ∃ pf, Models.mkPortForwardCreate "wan" p.protocol
           (toString p.host_port) data.network_config.ip_address
           (toString p.container_port)
           ("Container " ++ data.name ++ " Port Forward") = .ok pf) →
       (∀ s i d, B.create_static_mapping s i d = (s, .notImpl m1)) →
       (∀ s r, B.create_firewall_rule s r = (s, .notImpl m2)) →
       (∀ s q, B.create_port_forward s q = (s, .notImpl m3)) →
       ContainerService.ensureVlan B data st = (st1, .ok ()) →
       (∀ s d, B.create_container s d = (s, .exn m)) →
       ContainerService.deploy_container B data st = (st1, .exn m)) ∧
    (∀ (B : ContainerService.Backend) (data : Models.ContainerCreate)
       (st st1 : ContainerService.SysState) (m : String),
       (∃ d, Models.mkDHCPStaticMappingCreate data.network_config.mac_address
           data.network_config.ip_address data.name ("Container " ++ data.name) = .ok d) →
       ContainerService.ensureVlan B data st = (st1, .ok ()) →
       (∀ s i d, B.create_static_mapping s i d = (s, .exn m)) →
       ContainerService.deploy_container B data st = (st1, .exn m)) := by
  refine ⟨?_, ?_, ?_⟩
  · intro B data st m1 m2 m3 m4 hd hp hsm hfw hpf hap
    have A1 : ∀ s, ContainerService.staticMappingStep B data
        ("opt" ++ toString data.network_config.vlan_id) s = (s, .ok ()) :=
      fun s => staticMappingStep_skips_notImpl B data _ s m1 hd hsm
    have A2 : ∀ s, ContainerService.internetRuleStep B data
        ("opt" ++ toString data.network_config.vlan_id) s = (s, .ok ()) :=
      fun s => internetRuleStep_skips_notImpl B data _ s m2 hfw
    have A3 : ∀ s, ContainerService.portForwardSteps B data.network_config.ip_address
        data.name s data.ports = (s, .ok ()) :=
      fun s => portForwardSteps_skips_notImpl B data.network_config.ip_address
        data.name m3 data.ports s hp hpf
    have A4 : ∀ s, ContainerService.applyChangesStep B s = (s, .ok ()) :=
      fun s => applyChangesStep_skips_notImpl B s m4 hap
    rcases h1 : ContainerService.ensureVlan B data st with ⟨st1, o⟩
    cases o with
    | exn m => simp [ContainerService.deploy_container,
        ContainerService.deployVlanContainerOnly, h1]
    | notImpl m => simp [ContainerService.deploy_container,
        ContainerService.deployVlanContainerOnly, h1]
    | ok u =>
        rcases h5 : B.create_container st1 data with ⟨st5, o5⟩
        cases o5 <;>
          simp [ContainerService.deploy_container,
            ContainerService.deployVlanContainerOnly, h1, A1, A2, A3, A4, h5]
  · intro B data st st1 m m1 m2 m3 hd hp hsm hfw hpf h1 hcc
    have A1 : ∀ s, ContainerService.staticMappingStep B data
        ("opt" ++ toString data.network_config.vlan_id) s = (s, .ok ()) :=
      fun s => staticMappingStep_skips_notImpl B data _ s m1 hd hsm
    have A2 : ∀ s, ContainerService.internetRuleStep B data
        ("opt" ++ toString data.network_config.vlan_id) s = (s, .ok ()) :=
      fun s => internetRuleStep_skips_notImpl B data _ s m2 hfw
    have A3 : ∀ s, ContainerService.portForwardSteps B data.network_config.ip_address
        data.name s data.ports = (s, .ok ()) :=
      fun s => portForwardSteps_skips_notImpl B data.network_config.ip_address
        data.name m3 data.ports s hp hpf
    simp [ContainerService.deploy_container, h1, A1, A2, A3, hcc]
  · intro B data st st1 m hd h1 hsme
    have A1 : ∀ s, ContainerService.staticMappingStep B data
        ("opt" ++ toString data.network_config.vlan_id) s = (s, .exn m) :=
      fun s => staticMappingStep_propagates_exn B data _ s m hd hsme
    simp [ContainerService.deploy_container, h1, A1]

/-- C5 witness: the three parts applied to concrete scripted backends on
the `web1` request. -/
theorem deploy_error_handling_policy_witness :
    ContainerService.deploy_container scriptedNotImplBackend web1Request emptySysState =
      ContainerService.deployVlanContainerOnly scriptedNotImplBackend web1Request
        emptySysState ∧
    ContainerService.deploy_container failingCreateBackend web1Request emptySysState =
      (emptySysState, .exn "boom") ∧
    ContainerService.deploy_container failingMappingBackend web1Request emptySysState =
      (emptySysState, .exn "boom") :=
  ⟨deploy_error_handling_policy.1 scriptedNotImplBackend web1Request emptySysState
      "ni" "ni" "ni" "ni" ⟨_, rfl⟩
      (by intro p hp
          simp only [web1Request] at hp
          simp only [List.mem_singleton] at hp
          subst hp
          exact ⟨_, rfl⟩)
      (fun s i d => rfl) (fun s r => rfl) (fun s q => rfl) (fun s => rfl),
   deploy_error_handling_policy.2.1 failingCreateBackend web1Request emptySysState
      emptySysState "boom" "ni" "ni" "ni" ⟨_, rfl⟩
      (by intro p hp
          simp only [web1Request] at hp
          simp only [List.mem_singleton] at hp
          subst hp
          exact ⟨_, rfl⟩)
      (fun s i d => rfl) (fun s r => rfl) (fun s q => rfl) rfl (fun s d => rfl),
   deploy_error_handling_policy.2.2 failingMappingBackend web1Request emptySysState
      emptySysState "boom" ⟨_, rfl⟩ rfl (fun s i d => rfl)⟩

/-- The per-port message list is non-empty exactly when the code's
port-conflict condition holds for that port entry. -/
theorem portMsgsOne_ne_nil_iff (st : OrmState) (depName : Option String)
    (p : DeploymentService.PortDict) :
    DeploymentService.portConflictMsgsOne st depName p ≠ [] ↔
      DeploymentService.portConflictAmended st depName p := by
  unfold DeploymentService.portConflictMsgsOne DeploymentService.portConflictAmended
  dsimp only
  rcases hf : st.port_forwards.find?
      (fun f => f.src_port == pyStrOfOptInt p.host_port &&
        f.protocol == p.protocol.getD "tcp") with _ | f
  · rcases hc : st.containers.find?
        (fun c => c.ports.any (fun e => some e.host_port == p.host_port &&
            e.protocol == p.protocol.getD "tcp") && !(some c.name == depName)) with _ | c
    · rw [hf, hc]
      simp only [ne_eq, List.nil_append, not_true_eq_false, false_iff]
      rintro (⟨f, hmem, h1, h2⟩ | ⟨c, hmem, h1, h2⟩)
      · have := List.find?_eq_none.mp hf f hmem
        simp [h1, h2] at this
      · have := List.find?_eq_none.mp hc c hmem
        simp only [Bool.and_eq_true, List.any_eq_true, beq_iff_eq, Bool.not_eq_true',
          beq_eq_false_iff_ne, not_and] at this
        rcases h1 with ⟨e, he, he1, he2⟩
        exact this ⟨e, he, by simp [he1, he2]⟩ h2
    · rw [hf, hc]
      have hmem := List.mem_of_find?_eq_some hc
      have hpred := List.find?_some hc
      simp only [Bool.and_eq_true, List.any_eq_true, beq_iff_eq, Bool.not_eq_true',
        beq_eq_false_iff_ne] at hpred
      refine iff_of_true (by simp) (Or.inr ⟨c, hmem, ?_, hpred.2⟩)
      rcases hpred.1 with ⟨e, he, he1, he2⟩
      exact ⟨e, he, he1, he2⟩
  · rw [hf]
    have hmem := List.mem_of_find?_eq_some hf
    have hpred := List.find?_some hf
    simp only [Bool.and_eq_true, beq_iff_eq] at hpred
    exact iff_of_true (by simp) (Or.inl ⟨f, hmem, hpred.1, hpred.2⟩)

/-- The whole port loop produces a message exactly when some requested port
entry is in conflict. -/
theorem portMsgs_ne_nil_iff (st : OrmState) (depName : Option String) :
    ∀ l : List DeploymentService.PortDict,
      DeploymentService.portConflictMsgs st depName l ≠ [] ↔
        ∃ p ∈ l, DeploymentService.portConflictAmended st depName p := by
  intro l
  induction l with
  | nil => simp [DeploymentService.portConflictMsgs]
  | cons p rest ih =>
      show DeploymentService.portConflictMsgsOne st depName p ++
          DeploymentService.portConflictMsgs st depName rest ≠ [] ↔ _
      rw [Ne, List.append_eq_nil, not_and_or, ← Ne, ← Ne, portMsgsOne_ne_nil_iff, ih]
      simp [List.mem_cons, exists_eq_or_imp]

/-- C4 amended: the conflict report carries a `port` entry exactly when some
requested `(host_port, protocol)` pair has an existing port-forward —
regardless of that forward's destination — or is claimed by another
workload's port mappings. -/
theorem port_conflict_iff_forward_or_other_container :
    ∀ (st : OrmState) (dep : DeploymentService.DeploymentDict),
      (∃ msgs, ("port", msgs) ∈ DeploymentService.detect_conflicts st dep) ↔
        ∃ p ∈ dep.ports.getD [],
          DeploymentService.portConflictAmended st dep.name p := by
  intro st dep
  rw [← portMsgs_ne_nil_iff]
  unfold DeploymentService.detect_conflicts
  constructor
  · rintro ⟨msgs, hmem⟩
    obtain ⟨hm, hne⟩ := List.mem_filter.mp hmem
    simp only [List.mem_cons, List.not_mem_nil, or_false, Prod.mk.injEq] at hm
    rcases hm with ⟨h, _⟩ | ⟨h, _⟩ | ⟨h, _⟩ | ⟨_, h⟩
    · exact absurd h (by decide)
    · exact absurd h (by decide)
    · exact absurd h (by decide)
    · subst h
      simpa [List.isEmpty_iff] using hne
  · intro h
    refine ⟨DeploymentService.portConflictMsgs st dep.name (dep.ports.getD []), ?_⟩
    rw [List.mem_filter]
    exact ⟨by simp [List.mem_cons], by simp [List.isEmpty_iff, h]⟩

/-- C4 counterexample: with an existing forward of 8080/tcp to
`10.0.150.10:80` and the `web1` request mapping 8080/tcp to that same
destination (and no stored workloads at all), the claim's own condition is
false, yet the code still reports a port conflict. -/
theorem port_conflict_same_destination_flagged :
    DeploymentService.detect_conflicts forwardedState web1Deployment =
      [("port", ["Port 8080/tcp is already forwarded to 10.0.150.10:80"])] ∧
    ¬ DeploymentService.portConflictClaimed forwardedState web1Deployment web1PortDict ∧
    forwardedState.containers = [] := by
  refine ⟨rfl, ?_, rfl⟩
  rintro (⟨f, hmem, h1, h2, h3⟩ | ⟨c, hmem, _⟩)
  · simp only [forwardedState, List.mem_singleton] at hmem
    subst hmem
    exact h3 (by constructor <;> rfl)
  · simp [forwardedState] at hmem

/-- C10: for every stored state and every deployment dict — keys may be
absent, port entries may lack fields — `detect_conflicts` is total (the
embedding is a Lean function) and every entry of its report has a key among
`vlan`, `ip`, `mac`, `port` and a non-empty message list; empty categories
are filtered out rather than reported. -/
theorem detect_conflicts_report_shape :
    ∀ (st : OrmState) (dep : DeploymentService.DeploymentDict),
      (DeploymentService.detect_conflicts st dep).all
        (fun kv => (kv.1 == "vlan" || kv.1 == "ip" || kv.1 == "mac" || kv.1 == "port") &&
          !kv.2.isEmpty) = true := by
  intro st dep
  rw [List.all_eq_true]
  intro kv hkv
  unfold DeploymentService.detect_conflicts at hkv
  obtain ⟨hm, hne⟩ := List.mem_filter.mp hkv
  simp only [List.mem_cons, List.not_mem_nil, or_false] at hm
  rcases hm with rfl | rfl | rfl | rfl <;> simp_all

/-- Lowercasing keeps a hex digit hex. -/
theorem hex_pyLower_hex (c : Char) (h : XmlUtils.isHexDigit c = true) :
    XmlUtils.isHexDigit (XmlUtils.pyLower c) = true := by
  have hm : c ∈ ['A', 'B', 'C', 'D', 'E', 'F', 'a', 'b', 'c', 'd', 'e', 'f',
      '0', '1', '2', '3', '4', '5', '6', '7', '8', '9'] := by
    simpa [XmlUtils.isHexDigit] using h
  fin_cases hm <;> decide

/-- Lowercasing a hex digit yields a lowercase hex digit. -/
theorem hex_pyLower_lower (c : Char) (h : XmlUtils.isHexDigit c = true) :
    XmlUtils.isLowerHexDigit (XmlUtils.pyLower c) = true := by
  have hm : c ∈ ['A', 'B', 'C', 'D', 'E', 'F', 'a', 'b', 'c', 'd', 'e', 'f',
      '0', '1', '2', '3', '4', '5', '6', '7', '8', '9'] := by
    simpa [XmlUtils.isHexDigit] using h
  fin_cases hm <;> decide

/-- Lowercasing a hex digit is idempotent. -/
theorem hex_pyLower_fix (c : Char) (h : XmlUtils.isHexDigit c = true) :
    XmlUtils.pyLower (XmlUtils.pyLower c) = XmlUtils.pyLower c := by
  have hm : c ∈ ['A', 'B', 'C', 'D', 'E', 'F', 'a', 'b', 'c', 'd', 'e', 'f',
      '0', '1', '2', '3', '4', '5', '6', '7', '8', '9'] := by
    simpa [XmlUtils.isHexDigit] using h
  fin_cases hm <;> decide

/-- A MAC separator is not a hex digit. -/
theorem sep_not_hex (c : Char) (h : XmlUtils.isMacSep c = true) :
    XmlUtils.isHexDigit c = false := by
  simp only [XmlUtils.isMacSep, Bool.or_eq_true, beq_iff_eq] at h
  rcases h with rfl | rfl <;> decide

/-- Every character of a cleaned MAC is a hex digit fixed by lowercasing. -/
theorem macClean_mem (l : List Char) :
    ∀ c ∈ XmlUtils.macClean l, XmlUtils.isHexDigit c = true ∧ XmlUtils.pyLower c = c := by
  intro c hc
  simp only [XmlUtils.macClean, List.mem_map, List.mem_filter] at hc
  obtain ⟨x, ⟨_, hx⟩, rfl⟩ := hc
  exact ⟨hex_pyLower_hex x hx, hex_pyLower_fix x hx⟩

/-- Mapping `pyLower` over a list it already fixes is the identity. -/
theorem map_pyLower_fixed (xs : List Char) (h : ∀ c ∈ xs, XmlUtils.pyLower c = c) :
    xs.map XmlUtils.pyLower = xs := by
  induction xs with
  | nil => rfl
  | cons a t ih =>
      simp [h a (List.mem_cons_self a t), ih (fun c hc => h c (List.mem_cons_of_mem a hc))]

/-- The first twelve characters of a list, written as the six two-character
slices the normalizer takes. -/
theorem take_twelve_as_slices (cl : List Char) :
    cl.take 12 = XmlUtils.macSlice cl 0 ++ (XmlUtils.macSlice cl 2 ++ (XmlUtils.macSlice cl 4 ++
      (XmlUtils.macSlice cl 6 ++ (XmlUtils.macSlice cl 8 ++ XmlUtils.macSlice cl 10)))) := by
  simp only [XmlUtils.macSlice, List.drop_zero]
  rw [show (12 : Nat) = 2 + 10 from rfl, List.take_add,
      show (10 : Nat) = 2 + 8 from rfl, List.take_add,
      show (8 : Nat) = 2 + 6 from rfl, List.take_add,
      show (6 : Nat) = 2 + 4 from rfl, List.take_add,
      show (4 : Nat) = 2 + 2 from rfl, List.take_add]
  simp [List.drop_drop]

/-- Filtering the normalizer's output back to hex digits recovers the first
twelve cleaned characters (the separators are dropped again). -/
theorem filter_hex_normalizeMacChars (l : List Char) :
    (XmlUtils.normalizeMacChars l).filter XmlUtils.isHexDigit =
      (XmlUtils.macClean l).take 12 := by
  have hfil : ∀ i, (XmlUtils.macSlice (XmlUtils.macClean l) i).filter XmlUtils.isHexDigit =
      XmlUtils.macSlice (XmlUtils.macClean l) i := by
    intro i
    refine List.filter_eq_self.mpr ?_
    intro c hc
    have hmem : c ∈ XmlUtils.macClean l :=
      List.mem_of_mem_drop (List.mem_of_mem_take hc)
    exact (macClean_mem l c hmem).1
  have hcolon : XmlUtils.isHexDigit ':' = false := by decide
  unfold XmlUtils.normalizeMacChars
  dsimp only
  rw [take_twelve_as_slices]
  simp [List.filter_append, List.filter_cons, hcolon, hfil]

/-- Cleaning the normalizer's output yields the first twelve cleaned
characters of the input. -/
theorem macClean_normalizeMacChars (l : List Char) :
    XmlUtils.macClean (XmlUtils.normalizeMacChars l) = (XmlUtils.macClean l).take 12 := by
  show ((XmlUtils.normalizeMacChars l).filter XmlUtils.isHexDigit).map XmlUtils.pyLower = _
  rw [filter_hex_normalizeMacChars, List.map_take,
      map_pyLower_fixed _ (fun c hc => (macClean_mem l c hc).2)]

/-- Slices at offsets up to 10 see only the first twelve characters. -/
theorem macSlice_take (cl : List Char) (i : Nat) (h : i + 2 ≤ 12) :
    XmlUtils.macSlice (cl.take 12) i = XmlUtils.macSlice cl i := by
  unfold XmlUtils.macSlice
  rw [List.drop_take, List.take_take]
  congr 1
  omega

/-- C9: MAC normalization. (1) For every string accepted by
`validate_mac_address` (six hex pairs with mixed-case digits and `:` or `-`
separators), the normalized form is canonical — six lowercase hex pairs
joined by `:` — and its hex content is exactly the cleaned (lowercased) hex
content of the input. (2) For every string whatsoever, normalization is
idempotent. -/
theorem normalize_mac_canonical_and_idempotent :
    (∀ s : String, XmlUtils.validate_mac_address s = true →
       XmlUtils.isCanonicalMac (XmlUtils.normalize_mac_address s).data = true ∧
       (XmlUtils.normalize_mac_address s).data.filter XmlUtils.isHexDigit =
         XmlUtils.macClean s.data) ∧
    (∀ s : String,
       XmlUtils.normalize_mac_address (XmlUtils.normalize_mac_address s) =
         XmlUtils.normalize_mac_address s) := by
  constructor
  · intro s h
    unfold XmlUtils.validate_mac_address XmlUtils.macPattern at h
    split at h
    next a0 a1 s1 b0 b1 s2 c0 c1 s3 d0 d1 s4 e0 e1 s5 f0 f1 heq =>
      simp only [Bool.and_eq_true] at h
      obtain ⟨⟨⟨⟨⟨⟨⟨⟨⟨⟨⟨⟨⟨⟨⟨⟨ha0, ha1⟩, hs1⟩, hb0⟩, hb1⟩, hs2⟩, hc0⟩, hc1⟩, hs3⟩,
        hd0⟩, hd1⟩, hs4⟩, he0⟩, he1⟩, hs5⟩, hf0⟩, hf1⟩ := h
      have hn1 := sep_not_hex s1 hs1
      have hn2 := sep_not_hex s2 hs2
      have hn3 := sep_not_hex s3 hs3
      have hn4 := sep_not_hex s4 hs4
      have hn5 := sep_not_hex s5 hs5
      have hdata : (XmlUtils.normalize_mac_address s).data =
          XmlUtils.normalizeMacChars s.data := rfl
      have hclean : XmlUtils.macClean s.data =
          [XmlUtils.pyLower a0, XmlUtils.pyLower a1, XmlUtils.pyLower b0,
           XmlUtils.pyLower b1, XmlUtils.pyLower c0, XmlUtils.pyLower c1,
           XmlUtils.pyLower d0, XmlUtils.pyLower d1, XmlUtils.pyLower e0,
           XmlUtils.pyLower e1, XmlUtils.pyLower f0, XmlUtils.pyLower f1] := by
        rw [heq]
        simp [XmlUtils.macClean, List.filter, ha0, ha1, hb0, hb1, hc0, hc1,
          hd0, hd1, he0, he1, hf0, hf1, hn1, hn2, hn3, hn4, hn5]
      have hchars : XmlUtils.normalizeMacChars s.data =
          [XmlUtils.pyLower a0, XmlUtils.pyLower a1, ':', XmlUtils.pyLower b0,
           XmlUtils.pyLower b1, ':', XmlUtils.pyLower c0, XmlUtils.pyLower c1, ':',
           XmlUtils.pyLower d0, XmlUtils.pyLower d1, ':', XmlUtils.pyLower e0,
           XmlUtils.pyLower e1, ':', XmlUtils.pyLower f0, XmlUtils.pyLower f1] := by
        unfold XmlUtils.normalizeMacChars
        dsimp only
        rw [hclean]
        rfl
      constructor
      · rw [hdata, hchars]
        simp only [XmlUtils.isCanonicalMac, Bool.and_eq_true]
        refine ⟨⟨⟨⟨⟨⟨⟨⟨⟨⟨⟨⟨⟨⟨⟨⟨?_, ?_⟩, ?_⟩, ?_⟩, ?_⟩, ?_⟩, ?_⟩, ?_⟩, ?_⟩,
          ?_⟩, ?_⟩, ?_⟩, ?_⟩, ?_⟩, ?_⟩, ?_⟩, ?_⟩ <;>
          first
          | exact hex_pyLower_lower _ ha0
          | exact hex_pyLower_lower _ ha1
          | exact hex_pyLower_lower _ hb0
          | exact hex_pyLower_lower _ hb1
          | exact hex_pyLower_lower _ hc0
          | exact hex_pyLower_lower _ hc1
          | exact hex_pyLower_lower _ hd0
          | exact hex_pyLower_lower _ hd1
          | exact hex_pyLower_lower _ he0
          | exact hex_pyLower_lower _ he1
          | exact hex_pyLower_lower _ hf0
          | exact hex_pyLower_lower _ hf1
          | decide
      · rw [hdata, filter_hex_normalizeMacChars, hclean]
        rfl
    next heq =>
      exact absurd h (by simp)
  · intro s
    have hdata : (XmlUtils.normalize_mac_address s).data =
        XmlUtils.normalizeMacChars s.data := rfl
    show (⟨XmlUtils.normalizeMacChars (XmlUtils.normalize_mac_address s).data⟩ : String) = _
    rw [hdata]
    have key : XmlUtils.macClean (XmlUtils.normalizeMacChars s.data) =
        (XmlUtils.macClean s.data).take 12 := macClean_normalizeMacChars s.data
    show (⟨XmlUtils.macSlice (XmlUtils.macClean (XmlUtils.normalizeMacChars s.data)) 0 ++
        ':' :: XmlUtils.macSlice (XmlUtils.macClean (XmlUtils.normalizeMacChars s.data)) 2 ++
        ':' :: XmlUtils.macSlice (XmlUtils.macClean (XmlUtils.normalizeMacChars s.data)) 4 ++
        ':' :: XmlUtils.macSlice (XmlUtils.macClean (XmlUtils.normalizeMacChars s.data)) 6 ++
        ':' :: XmlUtils.macSlice (XmlUtils.macClean (XmlUtils.normalizeMacChars s.data)) 8 ++
        ':' :: XmlUtils.macSlice (XmlUtils.macClean (XmlUtils.normalizeMacChars s.data)) 10⟩ :
        String) =
      ⟨XmlUtils.macSlice (XmlUtils.macClean s.data) 0 ++
        ':' :: XmlUtils.macSlice (XmlUtils.macClean s.data) 2 ++
        ':' :: XmlUtils.macSlice (XmlUtils.macClean s.data) 4 ++
        ':' :: XmlUtils.macSlice (XmlUtils.macClean s.data) 6 ++
        ':' :: XmlUtils.macSlice (XmlUtils.macClean s.data) 8 ++
        ':' :: XmlUtils.macSlice (XmlUtils.macClean s.data) 10⟩
    rw [key, macSlice_take _ 0 (by omega), macSlice_take _ 2 (by omega),
        macSlice_take _ 4 (by omega), macSlice_take _ 6 (by omega),
        macSlice_take _ 8 (by omega), macSlice_take _ 10 (by omega)]

/-- C9 witness: a mixed-case, mixed-separator MAC normalizes canonically. -/
theorem normalize_mac_canonical_and_idempotent_witness :
    XmlUtils.validate_mac_address "Aa-bB:cC-dD:eE-fF" = true ∧
    (XmlUtils.isCanonicalMac
        (XmlUtils.normalize_mac_address "Aa-bB:cC-dD:eE-fF").data = true ∧
      (XmlUtils.normalize_mac_address "Aa-bB:cC-dD:eE-fF").data.filter
          XmlUtils.isHexDigit =
        XmlUtils.macClean ("Aa-bB:cC-dD:eE-fF" : String).data) :=
  ⟨by decide, normalize_mac_canonical_and_idempotent.1 "Aa-bB:cC-dD:eE-fF" (by decide)⟩

/-- C8 amended: `FirewallEndpoint` construction validates only the port
field (accepting a valid port and rejecting an out-of-range one); every
combination of the `{any, network, address}` selectors — none, one, or
several — is accepted unchanged. -/
theorem firewall_endpoint_accepts_any_selector_combination :
    ∀ (network address : Option String) (anyAddr : Bool),
      Models.mkFirewallEndpoint network address none anyAddr =
        .ok ⟨network, address, none, anyAddr⟩ ∧
      Models.mkFirewallEndpoint network address (some "80") anyAddr =
        .ok ⟨network, address, some "80", anyAddr⟩ ∧
      Models.mkFirewallEndpoint network address (some "0") anyAddr =
        .error "Port must be between 1 and 65535" := by
  intro n a ab
  exact ⟨rfl, rfl, rfl⟩

end OPNIaC
